import Mathlib

/-!
Verification of the clearpass-python client library (cprest package).

The development shallowly embeds the two pieces of the library that the
properties below concern:

* `Client.authenticate` together with the token-state properties
  `is_authorized`, `authorization_header`, `expiration_time` and
  `refresh_token` (src/cprest/client.py);
* the paginated `get_list` operations of `ActiveSessionOperator`
  (src/cprest/active_session_operator.py) and `EndpointOperator`
  (src/cprest/endpoint_operator.py), which share one loop shape.

External I/O is modelled by passing the responses of the server in as data: the
single `/oauth` response for `authenticate`, and a function from page index
to page response for `get_list`.  Each embedded operation additionally
returns the trace of requests it issued, so that claims of the form
"no network call is made" or "exactly K requests are issued" are statable.
-/

namespace CPRest

/-! ## Client token state (src/cprest/client.py) -/

/-- Mutable token state of `Client`: the five private fields set in
`Client.__init__` and mutated only by `Client.authenticate`.
`authorized_at` models the float `time.time()` value as a rational. -/
structure ClientState where
  authorized_at : Rat
  access_token : String
  token_type : String
  expires_in : Int
  refresh_token : String
deriving DecidableEq

/-- State after `Client.__init__`: all token fields empty / zero. -/
def Client.init : ClientState :=
  { authorized_at := 0, access_token := "", token_type := "", expires_in := 0,
    refresh_token := "" }

/-- Property `Client.is_authorized`: `True if self._access_token else False`
(a Python string is truthy iff non-empty). -/
def is_authorized (st : ClientState) : Bool :=
  st.access_token ≠ ""

/-- Property `Client.authorization_header`: returns
`" ".join([token_type, access_token])` when both are truthy, else `None`
(the implicit `return None` of Python on fall-through). -/
def authorization_header (st : ClientState) : Option String :=
  if st.token_type ≠ "" ∧ st.access_token ≠ "" then
    some (st.token_type ++ " " ++ st.access_token)
  else
    none

/-- Property `Client.expiration_time`: returns `authorized_at + expires_in`
when both are truthy (non-zero), else `None`. -/
def expiration_time (st : ClientState) : Option Rat :=
  if st.authorized_at ≠ 0 ∧ st.expires_in ≠ 0 then
    some (st.authorized_at + (st.expires_in : Rat))
  else
    none

/-! ## authenticate (src/cprest/client.py, lines 161-214) -/

/-- JSON body of the `/oauth` response, as the code reads it: each field
is `some v` when the key is present in `r.json()` and `none` when absent.
`status_code` is the HTTP status. -/
structure AuthResponse where
  status_code : Nat
  access_token : Option String
  token_type : Option String
  expires_in : Option Int
  refresh_token : Option String
deriving DecidableEq

/-- Keyword arguments of `authenticate`: `some v` models a keyword that was
passed, `none` one that was not (`kwargs.get(k, "")` then yields `""`). -/
structure AuthKwargs where
  client_secret : Option String
  username : Option String
  password : Option String
  refresh_token : Option String
deriving DecidableEq

/-- Request body built by `authenticate` before the network call
(client.py lines 182-194), as an ordered key/value list mirroring the
Python dict insertion order.  `none` models the `else` branch that raises
`ValueError("Unsupported grant type.")`. -/
def buildAuthBody (grant_type client_id : String) (kw : AuthKwargs) :
    Option (List (String × String)) :=
  let base := [("grant_type", grant_type), ("client_id", client_id)]
  if grant_type = "client_credentials" then
    some (base ++ [("client_secret", kw.client_secret.getD "")])
  else if grant_type = "password" then
    some (base ++ [("username", kw.username.getD ""), ("password", kw.password.getD "")] ++
      (match kw.client_secret with
       | some s => if s ≠ "" then [("client_secret", s)] else []
       | none => []))
  else if grant_type = "refresh_token" then
    some (base ++ [("refresh_token", kw.refresh_token.getD "")])
  else
    none

/-- Outcome of an `authenticate` call.  `invalidArgument` is the
`ValueError` raised for an unsupported grant type; `keyError` is the
`KeyError` raised by `r.json()["…"]` when a required field is missing from
a 200 response; `ok ret` is a normal return with value `ret`
(`none` on success, `some r` on a non-200 response). -/
inductive AuthOutcome where
  | invalidArgument : AuthOutcome
  | keyError : AuthOutcome
  | ok : Option AuthResponse → AuthOutcome
deriving DecidableEq

/-- Embedding of `Client.authenticate` (client.py lines 161-214).
`now` is the value `time.time()` returns during the call and `resp` the
`/oauth` response of the server.  The result is the client state after the call
(including the partially-updated state left behind when a `KeyError`
escapes mid-decode), the outcome, and the list of request bodies POSTed to
`/oauth` (empty exactly when no network call was made). -/
def authenticate (st : ClientState) (grant_type client_id : String)
    (kw : AuthKwargs) (now : Rat) (resp : AuthResponse) :
    ClientState × AuthOutcome × List (List (String × String)) :=
  match buildAuthBody grant_type client_id kw with
  | none => (st, .invalidArgument, [])
  | some body =>
    if resp.status_code = 200 then
      let st1 := { st with authorized_at := now }
      match resp.access_token with
      | none => (st1, .keyError, [body])
      | some atk =>
        let st2 := { st1 with access_token := atk }
        match resp.token_type with
        | none => (st2, .keyError, [body])
        | some tt =>
          let st3 := { st2 with token_type := tt }
          match resp.expires_in with
          | none => (st3, .keyError, [body])
          | some ei =>
            let st4 := { st3 with expires_in := ei }
            let st5 :=
              match resp.refresh_token with
              | some rt => { st4 with refresh_token := rt }
              | none => st4
            (st5, .ok none, [body])
    else
      (st, .ok (some resp), [body])

/-- Spec §3 invariant on `TokenState`: access token and token type are both
empty or both non-empty together. -/
def tokenInvariant (st : ClientState) : Prop :=
  st.access_token = "" ↔ st.token_type = ""

instance (st : ClientState) : Decidable (tokenInvariant st) := by
  unfold tokenInvariant
  infer_instance

/-! ## get_list pagination (active_session_operator.py / endpoint_operator.py) -/

/-- One page response for a list request.  `envelope = some items` models a
200-or-otherwise body whose JSON is truthy and has the
`_embedded.items` envelope; `envelope = none` models any other body
(falsy JSON, or `_embedded`/`items` missing). -/
structure ListResponse (α : Type) where
  status_code : Nat
  envelope : Option (List α)
deriving DecidableEq

/-- Query parameters of one GET request issued by the pagination loop;
`offset` and `limit` are stringified integers exactly as the code passes
`str(limit * count)` and `str(limit)`. -/
structure Request where
  resource : String
  filter : String
  sort : String
  offset : String
  limit : String
deriving DecidableEq

/-- Outcome of a `get_list` call.  The two `invalid…` constructors are the
two `ValueError`s raised by the argument validation; `result none` is the
Python `return None` (no-result sentinel) and `result (some xs)` a normal
list return. -/
inductive ListOutcome (α : Type) where
  | invalidLimit : ListOutcome α
  | invalidMaxRequests : ListOutcome α
  | result : Option (List α) → ListOutcome α
deriving DecidableEq

/-- The `for count in range(max_requests)` loop shared verbatim by
`ActiveSessionOperator.get_list` (lines 54-79) and
`EndpointOperator.get_list` (lines 55-80).  `pages n` is the
response of the server to the `n`-th request; `acc` and `reqs` are the accumulated items
and the requests issued so far; `count` is the loop index and `fuel` the
number of iterations left.  Returns the full request trace plus `some acc`
on a normal or `break` exit, `none` on the two `return None` paths. -/
def getListLoop (resource : String) (pages : Nat → ListResponse α)
    (filter sort : String) (lim : Int) :
    List α → List Request → Nat → Nat → List Request × Option (List α)
  | acc, reqs, _, 0 => (reqs, some acc)
  | acc, reqs, count, fuel + 1 =>
    let r := pages count
    let reqs2 := reqs ++
      [{ resource := resource, filter := filter, sort := sort,
         offset := toString (lim * (count : Int)), limit := toString lim }]
    if r.status_code = 200 then
      match r.envelope with
      | some items =>
        if 0 < items.length then
          getListLoop resource pages filter sort lim (acc ++ items) reqs2 (count + 1) fuel
        else
          (reqs2, some acc)
      | none => (reqs2, none)
    else
      (reqs2, none)

/-- Body of `get_list` once the keyword defaults are resolved: the
validation of `limit` and `max_requests` followed by the pagination loop.
The request trace is empty exactly when a `ValueError` was raised before
any request. -/
def getListCore (resource : String) (pages : Nat → ListResponse α)
    (filter sort : String) (limit max_requests : Int) :
    List Request × ListOutcome α :=
  if ¬ (1 ≤ limit ∧ limit ≤ 1000) then ([], .invalidLimit)
  else if ¬ (1 ≤ max_requests) then ([], .invalidMaxRequests)
  else
    let out := getListLoop resource pages filter sort limit [] [] 0 max_requests.toNat
    (out.1, .result out.2)

/-- Keyword arguments of `get_list`; `none` models an absent keyword, for
which `kwargs.get` substitutes the operator-specific default. -/
structure GetListKwargs where
  filter : Option String
  sort : Option String
  limit : Option Int
  max_requests : Option Int
deriving DecidableEq

/-- Embedding of `ActiveSessionOperator.get_list`: resource `/session`,
default filter `{"acctstoptime":{"$exists":false}}`, default sort `-id`,
default limit 1000, default max_requests 10. -/
def ActiveSessionOperator.get_list (pages : Nat → ListResponse α)
    (kw : GetListKwargs) : List Request × ListOutcome α :=
  getListCore "/session" pages
    (kw.filter.getD "\x7b\"acctstoptime\":\x7b\"$exists\":false\x7d\x7d")
    (kw.sort.getD "-id")
    (kw.limit.getD 1000)
    (kw.max_requests.getD 10)

/-- Embedding of `EndpointOperator.get_list`: resource `/endpoint`,
default filter `{}`, default sort `+id`, default limit 1000,
default max_requests 10. -/
def EndpointOperator.get_list (pages : Nat → ListResponse α)
    (kw : GetListKwargs) : List Request × ListOutcome α :=
  getListCore "/endpoint" pages
    (kw.filter.getD "\x7b\x7d")
    (kw.sort.getD "+id")
    (kw.limit.getD 1000)
    (kw.max_requests.getD 10)

/-! ## Helper notions for the pagination theorems -/

/-- A page on which the loop appends and continues: HTTP 200, well-formed
envelope, at least one item. -/
def goodPage (r : ListResponse α) : Prop :=
  r.status_code = 200 ∧ r.envelope ≠ none ∧ r.envelope.getD [] ≠ []

instance (r : ListResponse α) [DecidableEq α] : Decidable (goodPage r) := by
  unfold goodPage
  infer_instance

/-- Concatenation of the envelope items of pages `start, …, start+k-1`. -/
def pagesItems (pages : Nat → ListResponse α) : Nat → Nat → List α
  | _, 0 => []
  | start, k + 1 => (pages start).envelope.getD [] ++ pagesItems pages (start + 1) k

/-- The requests the loop issues for page indices `start, …, start+k-1`. -/
def pagesReqs (resource filter sort : String) (lim : Int) : Nat → Nat → List Request
  | _, 0 => []
  | start, k + 1 =>
    { resource := resource, filter := filter, sort := sort,
      offset := toString (lim * (start : Int)), limit := toString lim } ::
      pagesReqs resource filter sort lim (start + 1) k

/-! ## Helper lemmas about the pagination loop -/

theorem pagesItems_snoc (pages : Nat → ListResponse α) :
    ∀ (k start : Nat),
      pagesItems pages start (k + 1) =
        pagesItems pages start k ++ (pages (start + k)).envelope.getD [] := by
  intro k
  induction k with
  | zero => intro start; simp [pagesItems]
  | succ k ih =>
    intro start
    rw [pagesItems, ih (start + 1), pagesItems]
    simp [List.append_assoc, Nat.add_assoc, Nat.add_comm 1 k]

theorem pagesReqs_snoc (resource f s : String) (lim : Int) :
    ∀ (k start : Nat),
      pagesReqs resource f s lim start (k + 1) =
        pagesReqs resource f s lim start k ++
          [{ resource := resource, filter := f, sort := s,
             offset := toString (lim * ((start + k : Nat) : Int)), limit := toString lim }] := by
  intro k
  induction k with
  | zero => intro start; simp [pagesReqs]
  | succ k ih =>
    intro start
    rw [pagesReqs, ih (start + 1), pagesReqs]
    simp [Nat.add_assoc, Nat.add_comm 1 k]

theorem pagesReqs_length (resource f s : String) (lim : Int) :
    ∀ (k start : Nat), (pagesReqs resource f s lim start k).length = k := by
  intro k
  induction k with
  | zero => intro start; simp [pagesReqs]
  | succ k ih => intro start; rw [pagesReqs]; simp [ih]

theorem pagesReqs_getElem (resource f s : String) (lim : Int) :
    ∀ (k start i : Nat), i < k →
      (pagesReqs resource f s lim start k)[i]? =
        some { resource := resource, filter := f, sort := s,
               offset := toString (lim * ((start + i : Nat) : Int)),
               limit := toString lim } := by
  intro k
  induction k with
  | zero => intro start i h; omega
  | succ k ih =>
    intro start i h
    match i with
    | 0 => simp [pagesReqs]
    | i + 1 =>
      rw [pagesReqs]
      simp only [List.getElem?_cons_succ]
      rw [ih (start + 1) i (by omega)]
      have harith : start + 1 + i = start + (i + 1) := by omega
      rw [harith]

theorem getListLoop_advance (resource : String) (pages : Nat → ListResponse α)
    (f s : String) (lim : Int) :
    ∀ (k fuel count : Nat) (acc : List α) (reqs : List Request), k ≤ fuel →
      (∀ i, i < k → goodPage (pages (count + i))) →
      getListLoop resource pages f s lim acc reqs count fuel =
        getListLoop resource pages f s lim (acc ++ pagesItems pages count k)
          (reqs ++ pagesReqs resource f s lim count k) (count + k) (fuel - k) := by
  intro k
  induction k with
  | zero => intro fuel count acc reqs _ _; simp [pagesItems, pagesReqs]
  | succ k ih =>
    intro fuel count acc reqs hk hgood
    obtain ⟨fuel0, rfl⟩ : ∃ f0, fuel = f0 + 1 := ⟨fuel - 1, by omega⟩
    have hg0 : goodPage (pages count) := by simpa using hgood 0 (Nat.succ_pos k)
    obtain ⟨h200, henv, hne⟩ := hg0
    obtain ⟨items, hitems⟩ := Option.ne_none_iff_exists'.mp henv
    have hlen : 0 < items.length := by
      have hni : items ≠ [] := by
        intro hnil
        apply hne
        rw [hitems, hnil]
        rfl
      exact List.length_pos.mpr hni
    rw [getListLoop]
    simp only [hitems, h200, if_true, hlen, if_pos]
    rw [ih fuel0 (count + 1) _ _ (by omega)
      (by
        intro i hi
        have := hgood (i + 1) (by omega)
        have harith : count + (i + 1) = count + 1 + i := by omega
        rwa [harith] at this)]
    rw [pagesItems, pagesReqs]
    simp only [hitems, Option.getD_some, List.append_assoc, List.singleton_append]
    have h1 : count + 1 + k = count + (k + 1) := by omega
    have h2 : fuel0 - k = fuel0 + 1 - (k + 1) := by omega
    rw [h1, h2]

theorem getListCore_all_good (resource : String) (pages : Nat → ListResponse α)
    (f s : String) (lim maxr : Int)
    (hlow : 1 ≤ lim) (hhigh : lim ≤ 1000) (hmax : 1 ≤ maxr)
    (hgood : ∀ i, i < maxr.toNat → goodPage (pages i)) :
    getListCore resource pages f s lim maxr =
      (pagesReqs resource f s lim 0 maxr.toNat,
       .result (some (pagesItems pages 0 maxr.toNat))) := by
  rw [getListCore, if_neg (by omega), if_neg (by omega)]
  rw [getListLoop_advance resource pages f s lim maxr.toNat maxr.toNat 0 [] [] le_rfl
    (by simpa using hgood)]
  rw [Nat.sub_self]
  simp [getListLoop]

theorem getListCore_stop_empty (resource : String) (pages : Nat → ListResponse α)
    (f s : String) (lim maxr : Int) (N : Nat)
    (hlow : 1 ≤ lim) (hhigh : lim ≤ 1000) (hmax : 1 ≤ maxr) (hN : (N : Int) < maxr)
    (hpre : ∀ i, i < N → goodPage (pages i))
    (h200 : (pages N).status_code = 200)
    (hempty : (pages N).envelope = some []) :
    getListCore resource pages f s lim maxr =
      (pagesReqs resource f s lim 0 (N + 1),
       .result (some (pagesItems pages 0 N))) := by
  have hNlt : N < maxr.toNat := by omega
  rw [getListCore, if_neg (by omega), if_neg (by omega)]
  rw [getListLoop_advance resource pages f s lim N maxr.toNat 0 [] [] (by omega)
    (by simpa using hpre)]
  obtain ⟨m, hm⟩ : ∃ m, maxr.toNat - N = m + 1 := ⟨maxr.toNat - N - 1, by omega⟩
  rw [hm, getListLoop]
  simp only [Nat.zero_add, h200, hempty, if_true, List.length_nil, Nat.lt_irrefl,
    if_false, List.nil_append]
  rw [pagesReqs_snoc]
  simp

theorem getListCore_bad_page (resource : String) (pages : Nat → ListResponse α)
    (f s : String) (lim maxr : Int) (N : Nat)
    (hlow : 1 ≤ lim) (hhigh : lim ≤ 1000) (hmax : 1 ≤ maxr) (hN : (N : Int) < maxr)
    (hpre : ∀ i, i < N → goodPage (pages i))
    (hbad : (pages N).status_code ≠ 200 ∨ (pages N).envelope = none) :
    getListCore resource pages f s lim maxr =
      (pagesReqs resource f s lim 0 (N + 1), .result none) := by
  have hNlt : N < maxr.toNat := by omega
  rw [getListCore, if_neg (by omega), if_neg (by omega)]
  rw [getListLoop_advance resource pages f s lim N maxr.toNat 0 [] [] (by omega)
    (by simpa using hpre)]
  obtain ⟨m, hm⟩ : ∃ m, maxr.toNat - N = m + 1 := ⟨maxr.toNat - N - 1, by omega⟩
  rw [hm, getListLoop]
  rcases hbad with hst | henv
  · simp only [Nat.zero_add, if_neg hst, List.nil_append]
    rw [pagesReqs_snoc]
    simp
  · by_cases hst : (pages N).status_code = 200
    · simp only [Nat.zero_add, hst, henv, if_true, List.nil_append]
      rw [pagesReqs_snoc]
      simp
    · simp only [Nat.zero_add, if_neg hst, List.nil_append]
      rw [pagesReqs_snoc]
      simp

/-! ## Claim C1 -/

/-- C1 fails on the code: with limit 2 and max_requests 2, page 0 a 200
envelope with the single item 7 (fewer than limit, more than zero) and
page 1 a 200 envelope with items 8 and 9, `ActiveSessionOperator.get_list`
issues a second request and returns all three items, instead of stopping
after page 0 with one request and the single item 7 as the claim states. -/
theorem c1_counterexample :
    ((ActiveSessionOperator.get_list
        (fun n => if n = 0 then ⟨200, some [7]⟩ else ⟨200, some [8, 9]⟩)
        ⟨some "f", some "s", some 2, some 2⟩).1.length = 2 ∧
     (ActiveSessionOperator.get_list
        (fun n => if n = 0 then ⟨200, some [7]⟩ else ⟨200, some [8, 9]⟩)
        ⟨some "f", some "s", some 2, some 2⟩).2 =
       ListOutcome.result (some [7, 8, 9])) ∧
    ¬ ((ActiveSessionOperator.get_list
        (fun n => if n = 0 then ⟨200, some [7]⟩ else ⟨200, some [8, 9]⟩)
        ⟨some "f", some "s", some 2, some 2⟩).1.length = 1 ∧
      (ActiveSessionOperator.get_list
        (fun n => if n = 0 then ⟨200, some [7]⟩ else ⟨200, some [8, 9]⟩)
        ⟨some "f", some "s", some 2, some 2⟩).2 =
       ListOutcome.result (some [7])) := by
  decide

/-- C1 amended: pagination stops early only on a page with ZERO items.  If
pages 0..N-1 are 200 envelopes with at least one item each, page N
(N < max_requests) is a 200 envelope with zero items, and limit and
max_requests are valid, then the get_list of both operators issues exactly N+1
requests and returns the items accumulated through page N (page N itself
contributing none).  A page with fewer than `limit` but more than zero
items does not stop pagination. -/
theorem c1_amended_theorem (pages : Nat → ListResponse α) (f s : String)
    (lim maxr : Int) (N : Nat)
    (hlow : 1 ≤ lim) (hhigh : lim ≤ 1000) (hmax : 1 ≤ maxr) (hN : (N : Int) < maxr)
    (hpre : ∀ i, i < N → goodPage (pages i))
    (h200 : (pages N).status_code = 200)
    (hempty : (pages N).envelope = some []) :
    ((ActiveSessionOperator.get_list pages ⟨some f, some s, some lim, some maxr⟩).1.length
        = N + 1 ∧
     (ActiveSessionOperator.get_list pages ⟨some f, some s, some lim, some maxr⟩).2
        = ListOutcome.result (some (pagesItems pages 0 N))) ∧
    ((EndpointOperator.get_list pages ⟨some f, some s, some lim, some maxr⟩).1.length
        = N + 1 ∧
     (EndpointOperator.get_list pages ⟨some f, some s, some lim, some maxr⟩).2
        = ListOutcome.result (some (pagesItems pages 0 N))) := by
  have hA : ActiveSessionOperator.get_list pages ⟨some f, some s, some lim, some maxr⟩
      = getListCore "/session" pages f s lim maxr := rfl
  have hE : EndpointOperator.get_list pages ⟨some f, some s, some lim, some maxr⟩
      = getListCore "/endpoint" pages f s lim maxr := rfl
  rw [hA, hE,
    getListCore_stop_empty "/session" pages f s lim maxr N hlow hhigh hmax hN hpre h200 hempty,
    getListCore_stop_empty "/endpoint" pages f s lim maxr N hlow hhigh hmax hN hpre h200 hempty]
  simp [pagesReqs_length]

/-- Witness for `c1_amended_theorem` at a concrete input: limit 2,
max_requests 3, page 0 holding items 4 and 5, page 1 empty. -/
theorem c1_amended_witness :
    ((ActiveSessionOperator.get_list
        (fun n => if n = 0 then ⟨200, some [4, 5]⟩ else ⟨200, some []⟩)
        ⟨some "f", some "s", some 2, some 3⟩).1.length = 2 ∧
     (ActiveSessionOperator.get_list
        (fun n => if n = 0 then ⟨200, some [4, 5]⟩ else ⟨200, some []⟩)
        ⟨some "f", some "s", some 2, some 3⟩).2 =
       ListOutcome.result (some (pagesItems
         (fun n => if n = 0 then ⟨200, some [4, 5]⟩ else ⟨200, some []⟩) 0 1))) ∧
    ((EndpointOperator.get_list
        (fun n => if n = 0 then ⟨200, some [4, 5]⟩ else ⟨200, some []⟩)
        ⟨some "f", some "s", some 2, some 3⟩).1.length = 2 ∧
     (EndpointOperator.get_list
        (fun n => if n = 0 then ⟨200, some [4, 5]⟩ else ⟨200, some []⟩)
        ⟨some "f", some "s", some 2, some 3⟩).2 =
       ListOutcome.result (some (pagesItems
         (fun n => if n = 0 then ⟨200, some [4, 5]⟩ else ⟨200, some []⟩) 0 1))) :=
  c1_amended_theorem
    (fun n => if n = 0 then ⟨200, some [4, 5]⟩ else ⟨200, some []⟩) "f" "s" 2 3 1
    (by decide) (by decide) (by decide) (by decide)
    (by decide) (by decide) (by decide)

/-! ## Claim C3 -/

/-- C3: if the loop reaches a page whose HTTP status is not 200 or whose
body lacks the `_embedded.items` envelope (pages 0..N-1 being 200
envelopes with items, so that page N is actually requested), then both
the get_list of both operators returns the no-result sentinel `none`, discarding the
items accumulated from the earlier pages; the sentinel is distinct from an
empty list result. -/
theorem c3_theorem (pages : Nat → ListResponse α) (f s : String)
    (lim maxr : Int) (N : Nat)
    (hlow : 1 ≤ lim) (hhigh : lim ≤ 1000) (hmax : 1 ≤ maxr) (hN : (N : Int) < maxr)
    (hpre : ∀ i, i < N → goodPage (pages i))
    (hbad : (pages N).status_code ≠ 200 ∨ (pages N).envelope = none) :
    (ActiveSessionOperator.get_list pages ⟨some f, some s, some lim, some maxr⟩).2
        = ListOutcome.result none ∧
    (EndpointOperator.get_list pages ⟨some f, some s, some lim, some maxr⟩).2
        = ListOutcome.result none ∧
    (ListOutcome.result (none : Option (List α)) ≠ ListOutcome.result (some [])) := by
  have hA : ActiveSessionOperator.get_list pages ⟨some f, some s, some lim, some maxr⟩
      = getListCore "/session" pages f s lim maxr := rfl
  have hE : EndpointOperator.get_list pages ⟨some f, some s, some lim, some maxr⟩
      = getListCore "/endpoint" pages f s lim maxr := rfl
  rw [hA, hE,
    getListCore_bad_page "/session" pages f s lim maxr N hlow hhigh hmax hN hpre hbad,
    getListCore_bad_page "/endpoint" pages f s lim maxr N hlow hhigh hmax hN hpre hbad]
  simp

/-- Witness for `c3_theorem`: page 0 returns two items, page 1 returns
HTTP 500; the accumulated items are discarded and `none` is returned. -/
theorem c3_witness :
    (ActiveSessionOperator.get_list
        (fun n => if n = 0 then ⟨200, some [4, 5]⟩ else ⟨500, none⟩)
        ⟨some "f", some "s", some 2, some 5⟩).2 = ListOutcome.result none ∧
    (EndpointOperator.get_list
        (fun n => if n = 0 then ⟨200, some [4, 5]⟩ else ⟨500, none⟩)
        ⟨some "f", some "s", some 2, some 5⟩).2 = ListOutcome.result none ∧
    (ListOutcome.result (none : Option (List Nat)) ≠ ListOutcome.result (some [])) :=
  c3_theorem (fun n => if n = 0 then ⟨200, some [4, 5]⟩ else ⟨500, none⟩) "f" "s" 2 5 1
    (by decide) (by decide) (by decide) (by decide) (by decide) (by decide)

/-! ## Claim C4 -/

/-- C4: with max_requests = K ≥ 1, a valid limit, and every page a 200
envelope holding exactly `limit` items, the get_list of both operators issues
exactly K requests; request i carries query parameters
offset = str(limit * i) and limit = str(limit) (with the
resource, filter and sort of the operator), and the result is the concatenation of the K
pages in order. -/
theorem c4_theorem (pages : Nat → ListResponse α) (f s : String) (lim K : Int)
    (hlow : 1 ≤ lim) (hhigh : lim ≤ 1000) (hK : 1 ≤ K)
    (hfull : ∀ i, i < K.toNat → (pages i).status_code = 200 ∧
      (pages i).envelope.map (fun its => (its.length : Int)) = some lim) :
    ((ActiveSessionOperator.get_list pages ⟨some f, some s, some lim, some K⟩).1.length
        = K.toNat ∧
     (∀ i, i < K.toNat →
       (ActiveSessionOperator.get_list pages ⟨some f, some s, some lim, some K⟩).1[i]? =
         some { resource := "/session", filter := f, sort := s,
                offset := toString (lim * (i : Int)), limit := toString lim }) ∧
     (ActiveSessionOperator.get_list pages ⟨some f, some s, some lim, some K⟩).2
        = ListOutcome.result (some (pagesItems pages 0 K.toNat))) ∧
    ((EndpointOperator.get_list pages ⟨some f, some s, some lim, some K⟩).1.length
        = K.toNat ∧
     (∀ i, i < K.toNat →
       (EndpointOperator.get_list pages ⟨some f, some s, some lim, some K⟩).1[i]? =
         some { resource := "/endpoint", filter := f, sort := s,
                offset := toString (lim * (i : Int)), limit := toString lim }) ∧
     (EndpointOperator.get_list pages ⟨some f, some s, some lim, some K⟩).2
        = ListOutcome.result (some (pagesItems pages 0 K.toNat))) := by
  have hgood : ∀ i, i < K.toNat → goodPage (pages i) := by
    intro i hi
    obtain ⟨h200, hmap⟩ := hfull i hi
    obtain ⟨its, hits, hlen⟩ := Option.map_eq_some'.mp hmap
    refine ⟨h200, by simp [hits], ?_⟩
    rw [hits]
    intro hnil
    rw [Option.getD_some] at hnil
    rw [hnil] at hlen
    simp at hlen
    omega
  have hA : ActiveSessionOperator.get_list pages ⟨some f, some s, some lim, some K⟩
      = getListCore "/session" pages f s lim K := rfl
  have hE : EndpointOperator.get_list pages ⟨some f, some s, some lim, some K⟩
      = getListCore "/endpoint" pages f s lim K := rfl
  rw [hA, hE,
    getListCore_all_good "/session" pages f s lim K hlow hhigh hK hgood,
    getListCore_all_good "/endpoint" pages f s lim K hlow hhigh hK hgood]
  refine ⟨⟨by simp [pagesReqs_length], ?_, rfl⟩, by simp [pagesReqs_length], ?_, rfl⟩ <;>
    intro i hi <;> rw [pagesReqs_getElem _ f s lim K.toNat 0 i hi] <;> simp

/-- Witness for `c4_theorem`: limit 2, K = 2, both pages full. -/
theorem c4_witness :
    ((ActiveSessionOperator.get_list
        (fun n => if n = 0 then ⟨200, some [4, 5]⟩ else ⟨200, some [6, 7]⟩)
        ⟨some "f", some "s", some 2, some 2⟩).1.length = (2 : Int).toNat ∧
     (∀ i, i < (2 : Int).toNat →
       (ActiveSessionOperator.get_list
          (fun n => if n = 0 then ⟨200, some [4, 5]⟩ else ⟨200, some [6, 7]⟩)
          ⟨some "f", some "s", some 2, some 2⟩).1[i]? =
         some { resource := "/session", filter := "f", sort := "s",
                offset := toString ((2 : Int) * (i : Int)), limit := toString (2 : Int) }) ∧
     (ActiveSessionOperator.get_list
        (fun n => if n = 0 then ⟨200, some [4, 5]⟩ else ⟨200, some [6, 7]⟩)
        ⟨some "f", some "s", some 2, some 2⟩).2 =
       ListOutcome.result (some (pagesItems
         (fun n => if n = 0 then ⟨200, some [4, 5]⟩ else ⟨200, some [6, 7]⟩) 0 (2 : Int).toNat))) ∧
    ((EndpointOperator.get_list
        (fun n => if n = 0 then ⟨200, some [4, 5]⟩ else ⟨200, some [6, 7]⟩)
        ⟨some "f", some "s", some 2, some 2⟩).1.length = (2 : Int).toNat ∧
     (∀ i, i < (2 : Int).toNat →
       (EndpointOperator.get_list
          (fun n => if n = 0 then ⟨200, some [4, 5]⟩ else ⟨200, some [6, 7]⟩)
          ⟨some "f", some "s", some 2, some 2⟩).1[i]? =
         some { resource := "/endpoint", filter := "f", sort := "s",
                offset := toString ((2 : Int) * (i : Int)), limit := toString (2 : Int) }) ∧
     (EndpointOperator.get_list
        (fun n => if n = 0 then ⟨200, some [4, 5]⟩ else ⟨200, some [6, 7]⟩)
        ⟨some "f", some "s", some 2, some 2⟩).2 =
       ListOutcome.result (some (pagesItems
         (fun n => if n = 0 then ⟨200, some [4, 5]⟩ else ⟨200, some [6, 7]⟩) 0 (2 : Int).toNat))) :=
  c4_theorem (fun n => if n = 0 then ⟨200, some [4, 5]⟩ else ⟨200, some [6, 7]⟩)
    "f" "s" 2 2 (by decide) (by decide) (by decide) (by decide)

/-! ## Claim C5 -/

/-- C5: for both operators, a limit outside [1,1000] makes get_list raise
ValueError("The limit is invalid.") with no request issued (empty trace);
an in-range limit with max_requests < 1 raises
ValueError("The max requests is invalid.") with no request issued; and
with both parameters in range the validation raises no error (the call
reaches the loop and produces a `result` outcome). -/
theorem c5_theorem (pages : Nat → ListResponse α) (f s : String) (lim maxr : Int) :
    (¬ (1 ≤ lim ∧ lim ≤ 1000) →
      ActiveSessionOperator.get_list pages ⟨some f, some s, some lim, some maxr⟩
          = ([], ListOutcome.invalidLimit) ∧
      EndpointOperator.get_list pages ⟨some f, some s, some lim, some maxr⟩
          = ([], ListOutcome.invalidLimit)) ∧
    ((1 ≤ lim ∧ lim ≤ 1000) → maxr < 1 →
      ActiveSessionOperator.get_list pages ⟨some f, some s, some lim, some maxr⟩
          = ([], ListOutcome.invalidMaxRequests) ∧
      EndpointOperator.get_list pages ⟨some f, some s, some lim, some maxr⟩
          = ([], ListOutcome.invalidMaxRequests)) ∧
    ((1 ≤ lim ∧ lim ≤ 1000) → 1 ≤ maxr →
      (∃ o, (ActiveSessionOperator.get_list pages
          ⟨some f, some s, some lim, some maxr⟩).2 = ListOutcome.result o) ∧
      (∃ o, (EndpointOperator.get_list pages
          ⟨some f, some s, some lim, some maxr⟩).2 = ListOutcome.result o)) := by
  have hA : ActiveSessionOperator.get_list pages ⟨some f, some s, some lim, some maxr⟩
      = getListCore "/session" pages f s lim maxr := rfl
  have hE : EndpointOperator.get_list pages ⟨some f, some s, some lim, some maxr⟩
      = getListCore "/endpoint" pages f s lim maxr := rfl
  refine ⟨?_, ?_, ?_⟩
  · intro hout
    rw [hA, hE, getListCore, if_pos hout, getListCore, if_pos hout]
    exact ⟨rfl, rfl⟩
  · intro hin hmax
    rw [hA, hE, getListCore, if_neg (by omega), if_pos (by omega),
      getListCore, if_neg (by omega), if_pos (by omega)]
    exact ⟨rfl, rfl⟩
  · intro hin hmax
    rw [hA, hE, getListCore, if_neg (by omega), if_neg (by omega),
      getListCore, if_neg (by omega), if_neg (by omega)]
    exact ⟨⟨_, rfl⟩, ⟨_, rfl⟩⟩

/-- Witness for `c5_theorem`: with limit 0 both operators raise the limit
ValueError and issue no request. -/
theorem c5_witness :
    ActiveSessionOperator.get_list (fun _ => (⟨200, some [1]⟩ : ListResponse Nat))
        ⟨some "f", some "s", some 0, some 3⟩ = ([], ListOutcome.invalidLimit) ∧
    EndpointOperator.get_list (fun _ => (⟨200, some [1]⟩ : ListResponse Nat))
        ⟨some "f", some "s", some 0, some 3⟩ = ([], ListOutcome.invalidLimit) :=
  (c5_theorem (fun _ => (⟨200, some [1]⟩ : ListResponse Nat)) "f" "s" 0 3).1 (by decide)

/-! ## Helper lemma about authenticate network calls -/

theorem authenticate_posts (st : ClientState) (gt cid : String) (kw : AuthKwargs)
    (now : Rat) (resp : AuthResponse) (body : List (String × String))
    (hbody : buildAuthBody gt cid kw = some body) :
    (authenticate st gt cid kw now resp).2.2 = [body] := by
  unfold authenticate
  rw [hbody]
  by_cases h200 : resp.status_code = 200
  · simp only [h200, if_true]
    cases resp.access_token with
    | none => rfl
    | some atk =>
      cases resp.token_type with
      | none => rfl
      | some tt =>
        cases resp.expires_in with
        | none => rfl
        | some ei => cases resp.refresh_token <;> rfl
  · simp only [h200, if_false]

/-! ## Claim C2 -/

/-- C2 fails on the code for arbitrary server responses: a freshly
constructed client satisfies the invariant, but one authenticate call
whose 200 response carries access_token "x" and token_type "" leaves the
access token non-empty and the token type empty, breaking the invariant.
The code copies both fields from the response without any check. -/
theorem c2_counterexample :
    tokenInvariant Client.init ∧
    ¬ tokenInvariant (authenticate Client.init "password" "cid"
        ⟨none, none, none, none⟩ 5 ⟨200, some "x", some "", some 3600, none⟩).1 := by
  decide

/-- C2 amended: the invariant that access token and token type are both
empty or both non-empty holds after construction, and is preserved by
every authenticate call provided each 200 response contains both the
access_token and token_type fields and their values are both empty or
both non-empty.  (Without that restriction on responses the code violates
the invariant, see the counterexample.) -/
theorem c2_amended_theorem :
    tokenInvariant Client.init ∧
    ∀ (st : ClientState) (gt cid : String) (kw : AuthKwargs) (now : Rat)
      (resp : AuthResponse),
      tokenInvariant st →
      (resp.status_code = 200 →
        ∃ atk tt, resp.access_token = some atk ∧ resp.token_type = some tt ∧
          (atk = "" ↔ tt = "")) →
      tokenInvariant (authenticate st gt cid kw now resp).1 := by
  refine ⟨by simp [tokenInvariant, Client.init], ?_⟩
  intro st gt cid kw now resp hinv hresp
  unfold authenticate
  cases hbody : buildAuthBody gt cid kw with
  | none => simpa using hinv
  | some body =>
    by_cases h200 : resp.status_code = 200
    · obtain ⟨atk, tt, hat, htt, hiff⟩ := hresp h200
      simp only [h200, if_true, hat, htt]
      cases hei : resp.expires_in with
      | none => simpa [tokenInvariant] using hiff
      | some ei =>
        cases hrt : resp.refresh_token with
        | none => simpa [tokenInvariant] using hiff
        | some rt => simpa [tokenInvariant] using hiff
    · simpa [h200] using hinv

/-- Witness for `c2_amended_theorem` at a concrete authenticate call with
a well-formed 200 response. -/
theorem c2_amended_witness :
    tokenInvariant (authenticate Client.init "client_credentials" "cid"
        ⟨none, none, none, none⟩ 5 ⟨200, some "a", some "Bearer", some 10, none⟩).1 :=
  c2_amended_theorem.2 Client.init "client_credentials" "cid"
    ⟨none, none, none, none⟩ 5 ⟨200, some "a", some "Bearer", some 10, none⟩
    (by decide) (fun _ => ⟨"a", "Bearer", rfl, rfl, by simp⟩)

/-! ## Claim C7 -/

/-- C7: authenticate with a grant type other than client_credentials,
password or refresh_token raises ValueError("Unsupported grant type.")
before any network call (empty request trace) and leaves the whole token
state — access token, token type, issued-at, expires-in, refresh token —
unchanged. -/
theorem c7_theorem (st : ClientState) (gt cid : String) (kw : AuthKwargs)
    (now : Rat) (resp : AuthResponse)
    (h1 : gt ≠ "client_credentials") (h2 : gt ≠ "password")
    (h3 : gt ≠ "refresh_token") :
    authenticate st gt cid kw now resp = (st, AuthOutcome.invalidArgument, []) := by
  unfold authenticate buildAuthBody
  rw [if_neg h1, if_neg h2, if_neg h3]

/-- Witness for `c7_theorem`: grant type "implicit" is rejected with the
state untouched and no request posted. -/
theorem c7_witness :
    authenticate Client.init "implicit" "cid" ⟨none, none, none, none⟩ 0
        ⟨200, some "a", some "Bearer", some 10, none⟩
      = (Client.init, AuthOutcome.invalidArgument, []) :=
  c7_theorem Client.init "implicit" "cid" ⟨none, none, none, none⟩ 0
    ⟨200, some "a", some "Bearer", some 10, none⟩
    (by decide) (by decide) (by decide)

/-! ## Claim C6 -/

/-- C6: authenticate with grant_type "password" posts to /oauth a body
holding grant_type, client_id, username and password and no client_secret
field when client_secret is absent or empty; when client_secret is a
non-empty string the same body additionally carries that client_secret
field. -/
theorem c6_theorem (st : ClientState) (cid : String) (kw : AuthKwargs)
    (now : Rat) (resp : AuthResponse) :
    ((kw.client_secret = none ∨ kw.client_secret = some "") →
      (authenticate st "password" cid kw now resp).2.2 =
        [[("grant_type", "password"), ("client_id", cid),
          ("username", kw.username.getD ""), ("password", kw.password.getD "")]]) ∧
    (∀ sec, kw.client_secret = some sec → sec ≠ "" →
      (authenticate st "password" cid kw now resp).2.2 =
        [[("grant_type", "password"), ("client_id", cid),
          ("username", kw.username.getD ""), ("password", kw.password.getD ""),
          ("client_secret", sec)]]) := by
  constructor
  · intro hcs
    apply authenticate_posts
    unfold buildAuthBody
    rw [if_neg (by decide), if_pos rfl]
    rcases hcs with h | h <;> rw [h] <;> simp
  · intro sec hcs hne
    apply authenticate_posts
    unfold buildAuthBody
    rw [if_neg (by decide), if_pos rfl, hcs]
    simp [hne]

/-- Witness for `c6_theorem`: no client_secret keyword yields the
four-field body. -/
theorem c6_witness :
    (authenticate Client.init "password" "cid" ⟨none, some "u", some "p", none⟩ 0
        ⟨200, some "a", some "Bearer", some 10, none⟩).2.2 =
      [[("grant_type", "password"), ("client_id", "cid"),
        ("username", (some "u").getD ""), ("password", (some "p").getD "")]] :=
  (c6_theorem Client.init "cid" ⟨none, some "u", some "p", none⟩ 0
    ⟨200, some "a", some "Bearer", some 10, none⟩).1 (Or.inl rfl)

/-! ## Helper lemma: supported grant types always build a body -/

theorem buildAuthBody_isSome (gt cid : String) (kw : AuthKwargs)
    (hgt : gt = "client_credentials" ∨ gt = "password" ∨ gt = "refresh_token") :
    buildAuthBody gt cid kw ≠ none := by
  rcases hgt with h | h | h <;> subst h <;> simp [buildAuthBody]

/-! ## Claim C8 -/

/-- C8 fails on the code for responses with degenerate field values: a 200
response containing access_token "", token_type "Bearer" and expires_in
3600 leaves is_authorized false (the claim says true) and
authorization_header None (the claim says "Bearer "), because both
properties test the stored strings for non-emptiness. -/
theorem c8_counterexample :
    is_authorized (authenticate Client.init "client_credentials" "cid"
        ⟨none, none, none, none⟩ 5 ⟨200, some "", some "Bearer", some 3600, none⟩).1
      = false ∧
    authorization_header (authenticate Client.init "client_credentials" "cid"
        ⟨none, none, none, none⟩ 5 ⟨200, some "", some "Bearer", some 3600, none⟩).1
      = none ∧
    ¬ (is_authorized (authenticate Client.init "client_credentials" "cid"
        ⟨none, none, none, none⟩ 5 ⟨200, some "", some "Bearer", some 3600, none⟩).1
      = true) := by
  decide

/-- C8 amended: after an authenticate call with a supported grant type
whose 200 response carries a non-empty access_token, a non-empty
token_type and a non-zero expires_in, and whose wall-clock issue time is
non-zero, is_authorized is true, authorization_header is
"{token_type} {access_token}", and expiration_time is issued-at plus
expires_in.  (With an empty access_token the code leaves the client
unauthorized, see the counterexample.) -/
theorem c8_amended_theorem (st : ClientState) (gt cid : String) (kw : AuthKwargs)
    (now : Rat) (resp : AuthResponse) (atk tt : String) (ei : Int)
    (hgt : gt = "client_credentials" ∨ gt = "password" ∨ gt = "refresh_token")
    (h200 : resp.status_code = 200)
    (hat : resp.access_token = some atk) (hatne : atk ≠ "")
    (htt : resp.token_type = some tt) (httne : tt ≠ "")
    (hei : resp.expires_in = some ei) (heine : ei ≠ 0)
    (hnow : now ≠ 0) :
    is_authorized (authenticate st gt cid kw now resp).1 = true ∧
    authorization_header (authenticate st gt cid kw now resp).1
      = some (tt ++ " " ++ atk) ∧
    expiration_time (authenticate st gt cid kw now resp).1
      = some (now + (ei : Rat)) := by
  unfold authenticate
  cases hbody : buildAuthBody gt cid kw with
  | none => exact absurd hbody (buildAuthBody_isSome gt cid kw hgt)
  | some body =>
    simp only [h200, if_true, hat, htt, hei]
    cases hrt : resp.refresh_token <;>
      simp [is_authorized, authorization_header, expiration_time,
        hatne, httne, heine, hnow]

/-- Witness for `c8_amended_theorem` at a concrete successful call. -/
theorem c8_amended_witness :
    is_authorized (authenticate Client.init "client_credentials" "cid"
        ⟨none, none, none, none⟩ 5 ⟨200, some "a", some "Bearer", some 10, none⟩).1
      = true ∧
    authorization_header (authenticate Client.init "client_credentials" "cid"
        ⟨none, none, none, none⟩ 5 ⟨200, some "a", some "Bearer", some 10, none⟩).1
      = some ("Bearer" ++ " " ++ "a") ∧
    expiration_time (authenticate Client.init "client_credentials" "cid"
        ⟨none, none, none, none⟩ 5 ⟨200, some "a", some "Bearer", some 10, none⟩).1
      = some ((5 : Rat) + ((10 : Int) : Rat)) :=
  c8_amended_theorem Client.init "client_credentials" "cid"
    ⟨none, none, none, none⟩ 5 ⟨200, some "a", some "Bearer", some 10, none⟩
    "a" "Bearer" 10 (Or.inl rfl) rfl rfl (by decide) rfl (by decide) rfl
    (by decide) (by decide)

/-! ## Claim C9 -/

/-- C9: an authenticate call with a supported grant type whose 200
response carries access_token, token_type and expires_in but no
refresh_token field leaves the stored refresh token unchanged while
access token, token type, expires-in and issued-at are all overwritten
with the response values and the current time. -/
theorem c9_theorem (st : ClientState) (gt cid : String) (kw : AuthKwargs)
    (now : Rat) (resp : AuthResponse) (atk tt : String) (ei : Int)
    (hgt : gt = "client_credentials" ∨ gt = "password" ∨ gt = "refresh_token")
    (h200 : resp.status_code = 200)
    (hat : resp.access_token = some atk)
    (htt : resp.token_type = some tt)
    (hei : resp.expires_in = some ei)
    (hrt : resp.refresh_token = none) :
    (authenticate st gt cid kw now resp).1.refresh_token = st.refresh_token ∧
    (authenticate st gt cid kw now resp).1.access_token = atk ∧
    (authenticate st gt cid kw now resp).1.token_type = tt ∧
    (authenticate st gt cid kw now resp).1.expires_in = ei ∧
    (authenticate st gt cid kw now resp).1.authorized_at = now := by
  unfold authenticate
  cases hbody : buildAuthBody gt cid kw with
  | none => exact absurd hbody (buildAuthBody_isSome gt cid kw hgt)
  | some body =>
    simp only [h200, if_true, hat, htt, hei, hrt]
    exact ⟨trivial, trivial, trivial, trivial, trivial⟩

/-- Witness for `c9_theorem`: a previously stored refresh token "old"
survives a 200 response without a refresh_token field. -/
theorem c9_witness :
    (authenticate ⟨1, "t0", "Bearer", 7, "old"⟩ "client_credentials" "cid"
        ⟨none, none, none, none⟩ 5 ⟨200, some "a", some "Bearer", some 10, none⟩).1.refresh_token
      = (⟨1, "t0", "Bearer", 7, "old"⟩ : ClientState).refresh_token ∧
    (authenticate ⟨1, "t0", "Bearer", 7, "old"⟩ "client_credentials" "cid"
        ⟨none, none, none, none⟩ 5 ⟨200, some "a", some "Bearer", some 10, none⟩).1.access_token
      = "a" ∧
    (authenticate ⟨1, "t0", "Bearer", 7, "old"⟩ "client_credentials" "cid"
        ⟨none, none, none, none⟩ 5 ⟨200, some "a", some "Bearer", some 10, none⟩).1.token_type
      = "Bearer" ∧
    (authenticate ⟨1, "t0", "Bearer", 7, "old"⟩ "client_credentials" "cid"
        ⟨none, none, none, none⟩ 5 ⟨200, some "a", some "Bearer", some 10, none⟩).1.expires_in
      = 10 ∧
    (authenticate ⟨1, "t0", "Bearer", 7, "old"⟩ "client_credentials" "cid"
        ⟨none, none, none, none⟩ 5 ⟨200, some "a", some "Bearer", some 10, none⟩).1.authorized_at
      = 5 :=
  c9_theorem ⟨1, "t0", "Bearer", 7, "old"⟩ "client_credentials" "cid"
    ⟨none, none, none, none⟩ 5 ⟨200, some "a", some "Bearer", some 10, none⟩
    "a" "Bearer" 10 (Or.inl rfl) rfl rfl rfl rfl rfl

/-! ## Claim C10 -/

/-- C10: for a supported grant type, whenever authenticate returns
normally its value is None exactly when the /oauth status was 200; a
non-200 response is always returned raw, and a 200 response with the
three required fields always yields None — the opposite convention from
the operators, where None signals failure.  (A 200 response missing a
required field raises KeyError and returns nothing.) -/
theorem c10_theorem (st : ClientState) (gt cid : String) (kw : AuthKwargs)
    (now : Rat) (resp : AuthResponse)
    (hgt : gt = "client_credentials" ∨ gt = "password" ∨ gt = "refresh_token") :
    (∀ r, (authenticate st gt cid kw now resp).2.1 = AuthOutcome.ok r →
      (r = none ↔ resp.status_code = 200)) ∧
    (resp.status_code ≠ 200 →
      (authenticate st gt cid kw now resp).2.1 = AuthOutcome.ok (some resp)) ∧
    (resp.status_code = 200 →
      ∀ atk tt ei, resp.access_token = some atk → resp.token_type = some tt →
        resp.expires_in = some ei →
        (authenticate st gt cid kw now resp).2.1 = AuthOutcome.ok none) := by
  obtain ⟨body, hbody⟩ : ∃ b, buildAuthBody gt cid kw = some b := by
    cases hb : buildAuthBody gt cid kw with
    | none => exact absurd hb (buildAuthBody_isSome gt cid kw hgt)
    | some b => exact ⟨b, rfl⟩
  refine ⟨?_, ?_, ?_⟩
  · intro r hr
    unfold authenticate at hr
    simp only [hbody] at hr
    by_cases h200 : resp.status_code = 200
    · rw [if_pos h200] at hr
      cases hat : resp.access_token with
      | none => rw [hat] at hr; simp at hr
      | some atk =>
        cases htt : resp.token_type with
        | none => rw [hat, htt] at hr; simp at hr
        | some tt =>
          cases hei : resp.expires_in with
          | none => rw [hat, htt, hei] at hr; simp at hr
          | some ei =>
            rw [hat, htt, hei] at hr
            cases hrt : resp.refresh_token <;> rw [hrt] at hr <;>
              simp at hr <;> simp [← hr, h200]
    · rw [if_neg h200] at hr
      simp at hr
      simp [← hr, h200]
  · intro hne
    unfold authenticate
    simp only [hbody, if_neg hne]
  · intro h200 atk tt ei hat htt hei
    unfold authenticate
    simp only [hbody, h200, if_true, hat, htt, hei]

/-- Witness for `c10_theorem`: a 401 response is returned raw. -/
theorem c10_witness :
    (authenticate Client.init "client_credentials" "cid" ⟨none, none, none, none⟩ 5
        ⟨401, none, none, none, none⟩).2.1
      = AuthOutcome.ok (some ⟨401, none, none, none, none⟩) :=
  (c10_theorem Client.init "client_credentials" "cid" ⟨none, none, none, none⟩ 5
    ⟨401, none, none, none, none⟩ (Or.inl rfl)).2.1 (by decide)

end CPRest
